import Mathlib

/-!
Verification of the zCloak SDK selective-disclosure credential core:
a shallow embedding of the hash-commitment engine (`packages/vc/src/rootHash.ts`),
the hash dispatch map (`packages/vc/src/hasher.ts`), and the credential builder
(`protocol/vc/src/credential/vc.ts`), together with theorems settling the
specification's claims about them.
-/

/-- Hex-encoded byte strings (`HexString` in the TypeScript sources). -/
abbrev HexString := String

/-- A `Record<HexString, HexString>` mapping (field hash or claim path) to nonce,
embedded as an association list in insertion order. -/
abbrev NonceMap := List (HexString × HexString)

/-- The hash algorithm identifiers: the keys of the `HASHER` dispatch map in
`packages/vc/src/hasher.ts`. -/
inductive HashType where
  | RescuePrime
  | Blake2
  | Blake3
  | Blake32to1
  | Keccak256
  | Keccak512
  | Sha256
  | Sha512
deriving DecidableEq

/-- The string key of a `HashType` in the `HASHER` map. -/
def hashTypeName : HashType → String
  | .RescuePrime => "RescuePrime"
  | .Blake2 => "Blake2"
  | .Blake3 => "Blake3"
  | .Blake32to1 => "Blake32to1"
  | .Keccak256 => "Keccak256"
  | .Keccak512 => "Keccak512"
  | .Sha256 => "Sha256"
  | .Sha512 => "Sha512"

/-- The `HASHER` dispatch map of `packages/vc/src/hasher.ts`: selects a hash
primitive by `HashType` key. The primitives themselves are external
collaborators (spec section 1 places them out of scope), so they are modelled
as an injective tagged encoding of the input rather than a real digest. -/
def HASHER (t : HashType) (data : String) : HexString :=
  "0xdigest-" ++ hashTypeName t ++ "-" ++ data

/-- `DEFAULT_ROOT_HASH_TYPE` from `packages/vc/src/defaults.ts` (not in the
sources; the doc comment on `calcRoothash` records that the default is
Keccak256). -/
def DEFAULT_ROOT_HASH_TYPE : HashType := .Keccak256

/-- `AnyJson` claim values: string, number, boolean, array, nested object.
Objects are kept as ordered field lists, mirroring JavaScript insertion
order. -/
inductive Json where
  | str (s : String)
  | num (n : Int)
  | bool (b : Bool)
  | arr (elems : List Json)
  | obj (fields : List (String × Json))

mutual

/-- Number of leaf claims of a claim value: nested objects are flattened to
leaf paths (spec section 3); strings, numbers, booleans and arrays are leaves. -/
def Json.leafCount : Json → Nat
  | .obj fields => leafCountFields fields
  | _ => 1

/-- Total leaf count of an ordered field list. -/
def leafCountFields : List (String × Json) → Nat
  | [] => 0
  | (_, v) :: rest => Json.leafCount v + leafCountFields rest

end

/-- Result type of `calcRoothash` (`packages/vc/src/rootHash.ts`). -/
structure RootHashResult where
  rootHash : HexString
  hashes : List HexString
  nonceMap : NonceMap
  type : HashType

/-- `rootHashFromMerkle` from `packages/vc/src/rootHash.ts`: passes the hash
list and nonce map through and returns the constant root hash `0x`. -/
def rootHashFromMerkle (hashes : List HexString) (nonceMap : NonceMap) :
    List HexString × NonceMap × HexString :=
  (hashes, nonceMap, "0x")

/-- `calcRoothash` from `packages/vc/src/rootHash.ts`: the commit operation.
The body first executes `nonceMap = ` followed by an empty record literal,
discarding the optional caller-supplied nonce map, and then spreads
`rootHashFromMerkle` applied to the empty hash list, so the result always has
empty `hashes`, an empty `nonceMap` and root hash `0x`, for every input. -/
def calcRoothash (input : Json) (type : HashType := DEFAULT_ROOT_HASH_TYPE)
    (nonceMapIn : Option NonceMap := none) : RootHashResult :=
  let nonceMap : NonceMap := []
  let m := rootHashFromMerkle [] nonceMap
  { type := type, hashes := m.1, nonceMap := m.2.1, rootHash := m.2.2 }

/-- Example claim set used to exercise the commit operation:
the repository test fixture CONTENTS1 from the presentation tests. -/
def CONTENTS1 : Json :=
  .obj [("name", .str "zCloak"), ("age", .num 19),
        ("birthday", .str "2022.10.31"), ("isUser", .bool true)]

/-- A nonce map with one entry, standing for a nonce map produced at
issuance and supplied back to `calcRoothash` at verification time. -/
def exampleNonceMap : NonceMap := [("0xaa", "0x01")]

/-- Key purposes a DID key can be resolved for (`did.getKeyUrl` in the
sources). -/
inductive KeyPurpose where
  | assertionMethod
  | authentication
  | keyAgreement
  | capabilityInvocation
deriving DecidableEq

/-- Result of `did.signWithKey(message, didUrl)`: the key id actually used,
the raw signature bytes and the signature algorithm tag. -/
structure SignResult where
  id : String
  signature : String
  type : String

/-- The issuer or holder identity (`Did` from the did collaborator): an id, a
key-url lookup per purpose, and a single-shot signing capability. Signing is
asynchronous in the sources and awaited exactly once; it is embedded as a pure
function of the message and the key url. -/
structure Did where
  id : String
  keyUrl : KeyPurpose → String
  signFn : String → String → SignResult

/-- `base58Encode` from the crypto collaborator (out of scope per spec
section 1), modelled as an injective tagged encoding of the signature bytes. -/
def base58Encode (bytes : String) : String :=
  "z" ++ bytes

/-- A credential or presentation `Proof` (spec section 3). -/
structure Proof where
  type : String
  created : Nat
  verificationMethod : String
  proofPurpose : String
  proofValue : String

/-- Modelled from the spec: `signedVCMessage` lives in
`protocol/vc/src/utils.ts`, which is not among the sources; the comment on
`VerifiableCredentialBuilder._signDigest` records the layout as the
concatenation of the literal tag `CredentialVersionedDigest`, the version and
the digest. -/
def signedVCMessage (digest : HexString) (version : String) : String :=
  "CredentialVersionedDigest" ++ version ++ digest

/-- Payload of the digest calculation (spec section 4.2): root hash plus
credential metadata; expiration is optional. -/
structure DigestPayload where
  rootHash : HexString
  expirationDate : Option Nat
  holder : String
  ctype : HexString
  issuanceDate : Nat

/-- Modelled from the spec: `calcDigest` lives in `protocol/vc/src/digest.ts`,
which is not among the sources. Per spec section 4.2 it hashes a canonical
encoding of the root hash and metadata, prefixing a fixed literal tag for
version 1 and omitting the tag for later versions, and returns the digest with
the hash type used. -/
def calcDigest (version : String) (payload : DigestPayload) (t : HashType) :
    HexString × HashType :=
  let encoded := payload.rootHash ++ "|" ++ payload.holder ++ "|" ++ payload.ctype
      ++ "|" ++ toString payload.issuanceDate ++ "|"
      ++ (match payload.expirationDate with
          | some e => toString e
          | none => "")
  if version = "1" then (HASHER t ("VersionedDigest1" ++ encoded), t)
  else (HASHER t encoded, t)

/-- A published ctype schema reference (`CType`); only the `$id` hash is
relevant here. -/
structure CType where
  id : HexString

/-- The `Raw` claim-set holder consumed by the credential builder. Its
`checkSubject` method lives in `protocol/vc/src/credential/raw.ts`, which is
not among the sources; modelled from the spec as a recorded outcome of
checking the claim set against the ctype schema (spec section 4.3). -/
structure Raw where
  contents : Json
  owner : String
  ctype : CType
  hashType : HashType
  checkSubjectResult : Bool

/-- A built verifiable credential (`VerifiableCredential` in
`protocol/vc/src/types.ts`): optional fields that the builder may omit are
embedded as `Option`. -/
structure VerifiableCredential where
  context : List String
  version : String
  ctype : HexString
  issuanceDate : Nat
  credentialSubject : Json
  issuer : String
  holder : String
  hasher : HashType × HashType
  digest : HexString
  proof : List Proof
  credentialSubjectHashes : Option (List HexString)
  credentialSubjectNonceMap : Option NonceMap
  expirationDate : Option Nat

/-- The mutable state of `VerifiableCredentialBuilder`
(`protocol/vc/src/credential/vc.ts`): every settable attribute starts
undefined (`none`). In TypeScript `expirationDate` is
`number | null | undefined`, so it is a doubly optional value: `none` means
never set, `some none` means explicitly set to `null` (no expiry). -/
structure VerifiableCredentialBuilder where
  context : Option (List String)
  version : Option String
  issuanceDate : Option Nat
  expirationDate : Option (Option Nat)
  raw : Raw
  digestHashType : Option HashType

/-- `setExpirationDate`: records the timestamp, or `null` (here `none`)
meaning the credential never expires. -/
def VerifiableCredentialBuilder.setExpirationDate
    (b : VerifiableCredentialBuilder) (timestamp : Option Nat) :
    VerifiableCredentialBuilder :=
  { b with expirationDate := some timestamp }

/-- JavaScript truthiness of the builder's `version` string: defined and
non-empty. -/
def truthyVersion : Option String → Bool
  | some v => v ≠ ""
  | none => false

/-- JavaScript truthiness of the builder's `issuanceDate` number: defined and
non-zero. -/
def truthyDate : Option Nat → Bool
  | some n => n ≠ 0
  | none => false

/-- JavaScript truthiness of `this.expirationDate` (used for including the
field in the built credential): a set, non-null, non-zero timestamp. -/
def truthyExpiration : Option (Option Nat) → Bool
  | some (some t) => t ≠ 0
  | _ => false

/-- The guard of `build`: `this['@context'] && this.version &&
this.issuanceDate && this.digestHashType && this.expirationDate !== undefined`
(arrays and hash-type tags are always truthy when defined). -/
def VerifiableCredentialBuilder.metaOk (b : VerifiableCredentialBuilder) : Bool :=
  b.context.isSome && truthyVersion b.version && truthyDate b.issuanceDate &&
    b.digestHashType.isSome && b.expirationDate.isSome

/-- `VerifiableCredentialBuilder._signDigest`: for version `1` the signed
message is `signedVCMessage(digest, version)`, otherwise the digest itself;
the signing key url is resolved for the `assertionMethod` purpose and the
resulting proof carries `proofPurpose` `assertionMethod`. `Date.now()` is
passed in as `now`. -/
def VerifiableCredentialBuilder.signDigest (did : Did) (digest : HexString)
    (version : String) (now : Nat) : Proof :=
  let message : String := if version = "1" then signedVCMessage digest version else digest
  let signDidUrl := did.keyUrl .assertionMethod
  let r := did.signFn message signDidUrl
  { type := r.type
    created := now
    verificationMethod := r.id
    proofPurpose := "assertionMethod"
    proofValue := base58Encode r.signature }

/-- The credential assembled by the success path of
`VerifiableCredentialBuilder.build`: commits the claim contents, computes the
digest, obtains the issuer's proof, and assembles the credential; the hashes
and nonce map are attached only for the private (`isPublic = false`) variant
and `expirationDate` only when truthy. -/
def VerifiableCredentialBuilder.buildVC (b : VerifiableCredentialBuilder)
    (issuer : Did) (isPublic : Bool) (now : Nat) : VerifiableCredential :=
  let rootHashResult :=
      if isPublic then calcRoothash b.raw.contents b.raw.hashType none
      else calcRoothash b.raw.contents b.raw.hashType (some [])
    let version := b.version.getD ""
    let digestPayload : DigestPayload :=
      { rootHash := rootHashResult.rootHash
        expirationDate := match b.expirationDate with
          | some (some t) => if t = 0 then none else some t
          | _ => none
        holder := b.raw.owner
        ctype := b.raw.ctype.id
        issuanceDate := b.issuanceDate.getD 0 }
    let dg := calcDigest version digestPayload (b.digestHashType.getD .Keccak256)
    let proof := VerifiableCredentialBuilder.signDigest issuer dg.1 version now
    let vc0 : VerifiableCredential :=
      { context := b.context.getD []
        version := version
        ctype := b.raw.ctype.id
        issuanceDate := b.issuanceDate.getD 0
        credentialSubject := b.raw.contents
        issuer := issuer.id
        holder := b.raw.owner
        hasher := (rootHashResult.type, dg.2)
        digest := dg.1
        proof := [proof]
        credentialSubjectHashes := none
        credentialSubjectNonceMap := none
        expirationDate := none }
    let vc1 :=
      if isPublic then vc0
      else { vc0 with
              credentialSubjectHashes := some rootHashResult.hashes
              credentialSubjectNonceMap := some rootHashResult.nonceMap }
    if truthyExpiration b.expirationDate then
      { vc1 with expirationDate := match b.expirationDate with
          | some (some t) => some t
          | _ => none }
    else vc1

/-- `VerifiableCredentialBuilder.build`: asserts the subject check, requires
every metadata attribute to be set, and otherwise assembles the credential via
`buildVC`; both failures are `Except.error` and produce no credential. -/
def VerifiableCredentialBuilder.build (b : VerifiableCredentialBuilder)
    (issuer : Did) (isPublic : Bool) (now : Nat) :
    Except String VerifiableCredential :=
  if b.raw.checkSubjectResult = false then
    .error ("Subject check failed when use ctype " ++ b.raw.ctype.id)
  else if b.metaOk then .ok (b.buildVC issuer isPublic now)
  else .error "Can not to build an VerifiableCredential"

/-- Disclosure modes of the presentation builder (`VPType` in the sources):
full pass-through, digest-only, and selective disclosure. -/
inductive VPType where
  | VP
  | VP_Digest
  | VP_SelectiveDisclosure
deriving DecidableEq

/-- Modelled from the spec: `DEFAULT_CONTEXT` of the presentation builder
(`protocol/vc/src/defaults.ts` is not among the sources). -/
def DEFAULT_CONTEXT : List String := ["https://www.w3.org/2018/credentials/v1"]

/-- Modelled from the spec: `DEFAULT_VP_VERSION`
(`protocol/vc/src/defaults.ts` is not among the sources). -/
def DEFAULT_VP_VERSION : String := "0"

/-- Modelled from the spec: `DEFAULT_VP_HASH_TYPE`
(`protocol/vc/src/defaults.ts` is not among the sources). -/
def DEFAULT_VP_HASH_TYPE : HashType := .Keccak256

/-- Modelled from the spec: `hashDigests` (`protocol/vc/src/vp.ts` is not
among the sources) computes the presentation digest over the ordered sequence
of the included credentials' digests (spec section 4.4). -/
def hashDigests (digests : List HexString) (t : HashType) : HexString :=
  HASHER t (String.intercalate "," digests)

/-- A credential queued in the presentation builder together with its
disclosure mode and, for selective disclosure, the chosen field names. -/
structure VPItem where
  vc : VerifiableCredential
  vpType : VPType
  selected : Option (List String)

/-- A holder-signed presentation (spec section 3). -/
structure VerifiablePresentation where
  context : List String
  version : String
  vpTypes : List VPType
  verifiableCredential : List VerifiableCredential
  id : HexString
  proof : Proof
  hasher : List HashType

/-- Restriction of a claim object to the named top-level fields (selective
disclosure). -/
def filterSubject (subject : Json) (fields : List String) : Json :=
  match subject with
  | .obj fs => .obj (fs.filter fun p => fields.contains p.1)
  | other => other

/-- Modelled from the spec: per-credential redaction of the presentation
builder (`protocol/vc/src/vp.ts` is not among the sources; shape taken from
spec section 4.4 and the expectations of the presentation test suite).
`VP` passes the credential through unchanged; `VP_Digest` replaces the claim
set by the single root hash recomputed via `calcRoothash` from the stored
subject and nonce map and empties the hashes list and nonce map;
`VP_SelectiveDisclosure` keeps only the selected fields and their nonce
entries while the hashes list stays untouched. Digest and proof are never
altered. -/
def redactVC (vc : VerifiableCredential) :
    VPType → Option (List String) → VerifiableCredential
  | .VP, _ => vc
  | .VP_Digest, _ =>
    { vc with
        credentialSubject :=
          .str (calcRoothash vc.credentialSubject vc.hasher.1
                  vc.credentialSubjectNonceMap).rootHash
        credentialSubjectHashes := some []
        credentialSubjectNonceMap := some [] }
  | .VP_SelectiveDisclosure, selected =>
    let fields := selected.getD []
    { vc with
        credentialSubject := filterSubject vc.credentialSubject fields
        credentialSubjectNonceMap :=
          vc.credentialSubjectNonceMap.map fun m =>
            m.filter fun p => fields.contains p.1 }

/-- Modelled from the spec: `VerifiablePresentationBuilder.build`
(`protocol/vc/src/vp.ts` is not among the sources; shape taken from spec
section 4.4 and the expectations of the presentation test suite). Redacts each
queued credential by its mode, computes the presentation digest over the
insertion-ordered credential digests, and signs it with the holder's key
resolved for the `authentication` purpose, producing a proof with
`proofPurpose` `authentication`. -/
def VerifiablePresentationBuilder.build (holder : Did) (items : List VPItem)
    (now : Nat) : VerifiablePresentation :=
  let vcs := items.map fun it => redactVC it.vc it.vpType it.selected
  let digests := items.map fun it => it.vc.digest
  let idHash := hashDigests digests DEFAULT_VP_HASH_TYPE
  let url := holder.keyUrl .authentication
  let r := holder.signFn idHash url
  { context := DEFAULT_CONTEXT
    version := DEFAULT_VP_VERSION
    vpTypes := items.map (·.vpType)
    verifiableCredential := vcs
    id := idHash
    proof :=
      { type := r.type
        created := now
        verificationMethod := r.id
        proofPurpose := "authentication"
        proofValue := base58Encode r.signature }
    hasher := [DEFAULT_VP_HASH_TYPE] }

/-- A concrete DID fixture with distinct key urls per purpose and a
deterministic signing function. -/
def did0 : Did :=
  { id := "did:zk:claimer"
    keyUrl := fun p =>
      match p with
      | .assertionMethod => "did:zk:claimer#key-0"
      | .authentication => "did:zk:claimer#key-1"
      | _ => "did:zk:claimer#key-2"
    signFn := fun message url =>
      { id := url
        signature := "sig(" ++ message ++ ")"
        type := "EcdsaSecp256k1Signature2019" } }

/-- A fully configured builder whose expiration date was never set. -/
def bGood : VerifiableCredentialBuilder :=
  { context := some DEFAULT_CONTEXT
    version := some "1"
    issuanceDate := some 1667
    expirationDate := none
    raw :=
      { contents := CONTENTS1
        owner := "did:zk:claimer"
        ctype := { id := "0xc1" }
        hashType := .RescuePrime
        checkSubjectResult := true }
    digestHashType := some .Keccak256 }

/-- `bGood` with a missing `@context`. -/
def bBad : VerifiableCredentialBuilder := { bGood with context := none }

/-- `bGood` after `setExpirationDate(null)`. -/
def bFull : VerifiableCredentialBuilder := bGood.setExpirationDate none

/-- A placeholder credential used only to extract build results totally. -/
def placeholderVC : VerifiableCredential :=
  { context := []
    version := ""
    ctype := ""
    issuanceDate := 0
    credentialSubject := .obj []
    issuer := ""
    holder := ""
    hasher := (.Keccak256, .Keccak256)
    digest := ""
    proof := []
    credentialSubjectHashes := none
    credentialSubjectNonceMap := none
    expirationDate := none }

/-- The concrete public credential built from `bFull`. -/
def vcPub0 : VerifiableCredential :=
  ((bFull.build did0 true 3).toOption).getD placeholderVC

/-- The concrete private credential built from `bFull`. -/
def vcPriv0 : VerifiableCredential :=
  ((bFull.build did0 false 3).toOption).getD placeholderVC

/-- C1: `calcRoothash` is claimed to reuse the nonces of a supplied nonce map
so that the field hashes recomputed at verification match issuance. The code
instead overwrites the supplied map with an empty record: at claim set
CONTENTS1 with nonce map `exampleNonceMap`, the result's nonce map is empty,
so it does not contain the supplied entry. -/
theorem calcRoothash_discards_supplied_nonceMap :
    (calcRoothash CONTENTS1 .Keccak256 (some exampleNonceMap)).nonceMap = [] ∧
    ¬ ("0xaa", "0x01") ∈ (calcRoothash CONTENTS1 .Keccak256 (some exampleNonceMap)).nonceMap := by
  constructor
  · rfl
  · simp [calcRoothash, rootHashFromMerkle]

/-- C2: the hashes list is claimed to have one entry per leaf claim and the
root hash to be the hash of the sorted list. At the non-empty claim set
CONTENTS1 (4 leaves) the code returns an empty hashes list and the constant
root hash `0x`, which is not the image of any `HASHER` application. -/
theorem calcRoothash_hashes_empty_on_nonempty_claims :
    Json.leafCount CONTENTS1 = 4 ∧
    (calcRoothash CONTENTS1 .Keccak256 none).hashes.length = 0 ∧
    (calcRoothash CONTENTS1 .Keccak256 none).rootHash = "0x" ∧
    ∀ data : String, HASHER .Keccak256 data ≠ "0x" := by
  refine ⟨rfl, rfl, rfl, ?_⟩
  intro data h
  have hlen := congrArg String.length h
  simp [HASHER, hashTypeName, String.length_append] at hlen
  have h19 : ("0xdigest-Keccak256-" : String).length = 19 := rfl
  have h2 : ("0x" : String).length = 2 := rfl
  omega

/-- C9: committing an empty claim set is claimed to fail with
`EmptyClaimSetError`. The code is total and never raises: at the empty
object (zero leaves) it returns an ordinary `RootHashResult`. -/
theorem calcRoothash_no_error_on_empty_claims :
    Json.leafCount (Json.obj []) = 0 ∧
    calcRoothash (Json.obj []) .Keccak256 none =
      { rootHash := "0x", hashes := [], nonceMap := [], type := .Keccak256 } := by
  exact ⟨rfl, rfl⟩

/-- C8: the root hash returned by the commit operation is invariant under any
permutation of the claim set's leaf insertion order (here: of the top-level
field list). -/
theorem calcRoothash_rootHash_perm_invariant
    (fields fields' : List (String × Json)) (t : HashType)
    (h : fields.Perm fields') :
    (calcRoothash (Json.obj fields) t none).rootHash =
      (calcRoothash (Json.obj fields') t none).rootHash := rfl

/-- Witness for C8 at a concrete transposition of a two-field claim set. -/
theorem calcRoothash_rootHash_perm_invariant_witness :
    ([("a", Json.num 1), ("b", Json.num 2)]).Perm
        ([("b", Json.num 2), ("a", Json.num 1)]) ∧
    (calcRoothash (Json.obj [("a", Json.num 1), ("b", Json.num 2)]) .Sha256 none).rootHash =
      (calcRoothash (Json.obj [("b", Json.num 2), ("a", Json.num 1)]) .Sha256 none).rootHash :=
  ⟨List.Perm.swap _ _ _,
   calcRoothash_rootHash_perm_invariant _ _ .Sha256 (List.Perm.swap _ _ _)⟩

/-- C4: a successful public build carries no hashes list and no nonce map; a
successful private build carries the commitment's full hashes list and full
nonce map. -/
theorem build_isPublic_field_presence
    (b : VerifiableCredentialBuilder) (issuer : Did) (now : Nat)
    (vcPub vcPriv : VerifiableCredential)
    (hPub : b.build issuer true now = .ok vcPub)
    (hPriv : b.build issuer false now = .ok vcPriv) :
    vcPub.credentialSubjectHashes = none ∧
    vcPub.credentialSubjectNonceMap = none ∧
    vcPriv.credentialSubjectHashes =
      some (calcRoothash b.raw.contents b.raw.hashType (some [])).hashes ∧
    vcPriv.credentialSubjectNonceMap =
      some (calcRoothash b.raw.contents b.raw.hashType (some [])).nonceMap := by
  have hb : ∀ (isPub : Bool) (vcX : VerifiableCredential),
      b.build issuer isPub now = .ok vcX →
      vcX = b.buildVC issuer isPub now := by
    intro isPub vcX hX
    simp only [VerifiableCredentialBuilder.build] at hX
    split at hX
    · exact absurd hX (by simp)
    · split at hX
      · exact (Except.ok.inj hX).symm
      · exact absurd hX (by simp)
  rw [hb true vcPub hPub, hb false vcPriv hPriv]
  refine ⟨?_, ?_, ?_, ?_⟩ <;>
    (simp only [VerifiableCredentialBuilder.buildVC]; split <;> rfl)

/-- Witness for C4: `bFull` builds successfully in both variants; the public
credential omits both fields and the private one carries the commitment's
hashes and nonce map. -/
theorem build_isPublic_field_presence_witness :
    bFull.build did0 true 3 = .ok vcPub0 ∧
    bFull.build did0 false 3 = .ok vcPriv0 ∧
    (vcPub0.credentialSubjectHashes = none ∧
     vcPub0.credentialSubjectNonceMap = none ∧
     vcPriv0.credentialSubjectHashes =
       some (calcRoothash bFull.raw.contents bFull.raw.hashType (some [])).hashes ∧
     vcPriv0.credentialSubjectNonceMap =
       some (calcRoothash bFull.raw.contents bFull.raw.hashType (some [])).nonceMap) :=
  ⟨rfl, rfl, build_isPublic_field_presence bFull did0 3 vcPub0 vcPriv0 rfl rfl⟩

/-- C5: the issuer proof produced by `_signDigest` resolves the signing key
for the `assertionMethod` purpose and carries `proofPurpose`
`assertionMethod`; the holder proof of a built presentation is signed with the
key resolved for the `authentication` purpose and carries `proofPurpose`
`authentication`. -/
theorem proof_purposes
    (did : Did) (digest : HexString) (version : String) (now : Nat)
    (holder : Did) (items : List VPItem) (nowP : Nat) :
    (VerifiableCredentialBuilder.signDigest did digest version now).proofPurpose =
      "assertionMethod" ∧
    (VerifiableCredentialBuilder.signDigest did digest version now).verificationMethod =
      (did.signFn (if version = "1" then signedVCMessage digest version else digest)
        (did.keyUrl .assertionMethod)).id ∧
    (VerifiablePresentationBuilder.build holder items nowP).proof.proofPurpose =
      "authentication" ∧
    (VerifiablePresentationBuilder.build holder items nowP).proof.verificationMethod =
      (holder.signFn (hashDigests (items.map fun it => it.vc.digest) DEFAULT_VP_HASH_TYPE)
        (holder.keyUrl .authentication)).id :=
  ⟨rfl, rfl, rfl, rfl⟩

/-- C6: for protocol version `1` the message handed to the issuer signer is
the version-tagged wrapper `signedVCMessage(digest, version)`; for every
other version it is exactly the digest. -/
theorem signDigest_version_dispatch
    (did : Did) (digest : HexString) (now : Nat) (v : String) (hv : v ≠ "1") :
    (VerifiableCredentialBuilder.signDigest did digest "1" now).proofValue =
      base58Encode (did.signFn (signedVCMessage digest "1")
        (did.keyUrl .assertionMethod)).signature ∧
    (VerifiableCredentialBuilder.signDigest did digest v now).proofValue =
      base58Encode (did.signFn digest (did.keyUrl .assertionMethod)).signature := by
  constructor
  · rfl
  · simp [VerifiableCredentialBuilder.signDigest, hv]

/-- Witness for C6 at version `2`. -/
theorem signDigest_version_dispatch_witness :
    ("2" : String) ≠ "1" ∧
    ((VerifiableCredentialBuilder.signDigest did0 "0xdd" "1" 7).proofValue =
      base58Encode (did0.signFn (signedVCMessage "0xdd" "1")
        (did0.keyUrl .assertionMethod)).signature ∧
     (VerifiableCredentialBuilder.signDigest did0 "0xdd" "2" 7).proofValue =
      base58Encode (did0.signFn "0xdd" (did0.keyUrl .assertionMethod)).signature) :=
  ⟨by decide, signDigest_version_dispatch did0 "0xdd" 7 "2" (by decide)⟩

/-- C7: construction is all-or-nothing: a failed subject check or any missing
metadata attribute makes `build` return an error and no credential. -/
theorem build_all_or_nothing
    (b : VerifiableCredentialBuilder) (issuer : Did) (isPublic : Bool) (now : Nat)
    (h : b.raw.checkSubjectResult = false ∨ b.context = none ∨ b.version = none ∨
         b.issuanceDate = none ∨ b.digestHashType = none ∨ b.expirationDate = none) :
    ∃ msg, b.build issuer isPublic now = .error msg := by
  by_cases hcs : b.raw.checkSubjectResult = false
  · exact ⟨"Subject check failed when use ctype " ++ b.raw.ctype.id,
      by simp [VerifiableCredentialBuilder.build, hcs]⟩
  · have hcs' : b.raw.checkSubjectResult = true := by
      cases hb : b.raw.checkSubjectResult
      · exact absurd hb hcs
      · rfl
    have hm : b.metaOk = false := by
      rcases h with h | h | h | h | h | h
      · exact absurd h hcs
      all_goals
        simp [VerifiableCredentialBuilder.metaOk, h, truthyVersion, truthyDate]
    exact ⟨"Can not to build an VerifiableCredential",
      by simp [VerifiableCredentialBuilder.build, hcs', hm]⟩

/-- Witness for C7: `bBad` lacks its `@context` and `build` errors out. -/
theorem build_all_or_nothing_witness :
    (bBad.raw.checkSubjectResult = false ∨ bBad.context = none ∨ bBad.version = none ∨
     bBad.issuanceDate = none ∨ bBad.digestHashType = none ∨ bBad.expirationDate = none) ∧
    ∃ msg, bBad.build did0 false 0 = .error msg :=
  ⟨Or.inr (Or.inl rfl), build_all_or_nothing bBad did0 false 0 (Or.inr (Or.inl rfl))⟩

/-- C10: with every other metadata attribute present, a builder whose
expiration date was never set fails to build, while calling
`setExpirationDate(null)` satisfies the check and the built credential omits
the `expirationDate` field. -/
theorem build_requires_expirationDate
    (b : VerifiableCredentialBuilder) (issuer : Did) (isPublic : Bool) (now : Nat)
    (hsub : b.raw.checkSubjectResult = true)
    (hctx : b.context.isSome = true)
    (hver : truthyVersion b.version = true)
    (hdate : truthyDate b.issuanceDate = true)
    (hdht : b.digestHashType.isSome = true) :
    (b.expirationDate = none → ∃ msg, b.build issuer isPublic now = .error msg) ∧
    ∃ vc, (b.setExpirationDate none).build issuer isPublic now = .ok vc ∧
      vc.expirationDate = none := by
  constructor
  · intro hnone
    have hm : b.metaOk = false := by
      simp [VerifiableCredentialBuilder.metaOk, hnone]
    exact ⟨"Can not to build an VerifiableCredential",
      by simp [VerifiableCredentialBuilder.build, hsub, hm]⟩
  · have hm : (b.setExpirationDate none).metaOk = true := by
      simp [VerifiableCredentialBuilder.metaOk,
        VerifiableCredentialBuilder.setExpirationDate, hctx, hver, hdate, hdht]
    have hm' : ({ b with expirationDate := some none } :
        VerifiableCredentialBuilder).metaOk = true := by
      simpa [VerifiableCredentialBuilder.setExpirationDate] using hm
    refine ⟨(b.setExpirationDate none).buildVC issuer isPublic now, ?_, ?_⟩
    · simp [VerifiableCredentialBuilder.build, hm', hm,
        VerifiableCredentialBuilder.setExpirationDate, hsub]
    · simp only [VerifiableCredentialBuilder.buildVC,
        VerifiableCredentialBuilder.setExpirationDate]
      cases isPublic <;> simp [truthyExpiration]

/-- Witness for C10 at `bGood` (never-set expiration) and its
`setExpirationDate(null)` variant. -/
theorem build_requires_expirationDate_witness :
    (bGood.raw.checkSubjectResult = true ∧ bGood.context.isSome = true ∧
     truthyVersion bGood.version = true ∧ truthyDate bGood.issuanceDate = true ∧
     bGood.digestHashType.isSome = true) ∧
    ((bGood.expirationDate = none →
        ∃ msg, bGood.build did0 false 4 = .error msg) ∧
     ∃ vc, (bGood.setExpirationDate none).build did0 false 4 = .ok vc ∧
       vc.expirationDate = none) :=
  ⟨⟨rfl, rfl, rfl, rfl, rfl⟩,
   build_requires_expirationDate bGood did0 false 4 rfl rfl rfl rfl rfl⟩

/-- C3: every credential redacted in digest-only mode by the presentation
builder has its subject replaced by the single recomputed root hash, its
hashes list and nonce map emptied, and its digest and proof unchanged. -/
theorem vp_digestOnly_redaction
    (holder : Did) (items : List VPItem) (now : Nat) (i : Nat)
    (vc : VerifiableCredential) (sel : Option (List String))
    (h : items[i]? = some ⟨vc, .VP_Digest, sel⟩) :
    ∃ e, (VerifiablePresentationBuilder.build holder items now).verifiableCredential[i]? =
        some e ∧
      e.credentialSubject =
        .str (calcRoothash vc.credentialSubject vc.hasher.1
                vc.credentialSubjectNonceMap).rootHash ∧
      e.credentialSubjectHashes = some [] ∧
      e.credentialSubjectNonceMap = some [] ∧
      e.digest = vc.digest ∧
      e.proof = vc.proof := by
  refine ⟨redactVC vc .VP_Digest sel, ?_, rfl, rfl, rfl, rfl, rfl⟩
  simp [VerifiablePresentationBuilder.build, List.getElem?_map, h]

/-- Witness for C3: a one-credential presentation in digest-only mode. -/
theorem vp_digestOnly_redaction_witness :
    (([⟨vcPriv0, .VP_Digest, none⟩] : List VPItem)[0]? =
        some ⟨vcPriv0, .VP_Digest, none⟩) ∧
    ∃ e, (VerifiablePresentationBuilder.build did0 [⟨vcPriv0, .VP_Digest, none⟩] 9).verifiableCredential[0]? =
        some e ∧
      e.credentialSubject =
        .str (calcRoothash vcPriv0.credentialSubject vcPriv0.hasher.1
                vcPriv0.credentialSubjectNonceMap).rootHash ∧
      e.credentialSubjectHashes = some [] ∧
      e.credentialSubjectNonceMap = some [] ∧
      e.digest = vcPriv0.digest ∧
      e.proof = vcPriv0.proof :=
  ⟨rfl, vp_digestOnly_redaction did0 [⟨vcPriv0, .VP_Digest, none⟩] 9 0 vcPriv0 none rfl⟩
